import Mathlib

/-!
Verification development for numpy `src/numpy/core/src/multiarray/array_method.c`
(the ArrayMethod dispatch layer): a shallow embedding of the descriptor
resolution, specification validation, method construction, loop selection and
masked-loop machinery, together with theorems about the embedded code.

Conventions of the embedding:
* C pointers to heap objects are modelled by records carrying a numeric `id`
  field standing for the address; pointer equality is equality of ids.
* A nullable pointer is an `Option`; `none` is `NULL`.
* A C function that can set a Python error and return a failure code is
  modelled with `CRes`; a NULL-pointer dereference (undefined behavior in the
  original) is modelled explicitly by the distinguished outcome `CRes.crash`.
* Machine integers are modelled as `Int` (no arithmetic in this file comes
  near the width bounds).
-/

namespace ArrayMethod

/-- Kinds of Python exceptions raised by the translated code paths; `External`
stands for an error raised inside an external collaborator and propagated. -/
inductive PyErr where
  | TypeError
  | ValueError
  | RuntimeError
  | MemoryError
  | External
deriving DecidableEq, Repr

/-- Outcome of a C function: normal result, error return with a Python
exception set, or a NULL dereference (undefined behavior, made explicit). -/
inductive CRes (α : Type) where
  | ok (val : α)
  | err (e : PyErr)
  | crash
deriving DecidableEq, Repr

/-- `CRes` is a functor on the normal result. -/
def CRes.map {α β : Type} (f : α → β) : CRes α → CRes β
  | .ok a => .ok (f a)
  | .err e => .err e
  | .crash => .crash

/-- Whether a `CRes` is a normal result. -/
def CRes.isOk {α : Type} : CRes α → Bool
  | .ok _ => true
  | _ => false

/-- A `PyArray_DTypeMeta`-like object appearing in a spec slot.  `isDType`
models `PyObject_TypeCheck(-, &PyArrayDTypeMeta_Type)`: an arbitrary Python
object that is not a DType class has `isDType = false` (its other fields are
then meaningless junk, never reached by the code). -/
structure DTypeMeta where
  id : Nat
  isDType : Bool
  abstract : Bool
  parametric : Bool
deriving DecidableEq, Repr

/-- A `PyArray_Descr` (type instance).  `dtypeId` is the id of the DType class
the instance belongs to, i.e. `NPY_DTYPE(descr)` alias `Py_TYPE(descr)`;
`native` models native byte order (canonical form); `elsize` the item size. -/
structure Descr where
  id : Nat
  dtypeId : Nat
  native : Bool
  elsize : Int
deriving DecidableEq, Repr

/-- Modelled from the spec: the external type-class collaborator capabilities
(spec section 6), code not under src/ — `default_descr` produces the canonical
default instance of a class (`dtype->default_descr(dtype)`, may fail), and
`commonDType` is `PyArray_CommonDType` (least general common class, may fail). -/
structure DTypeEnv where
  default_descr : DTypeMeta → Option Descr
  commonDType : DTypeMeta → DTypeMeta → Option DTypeMeta

/-- Modelled from the spec: `ensure_dtype_nbo` (convert_datatype.c, not under
src/) canonicalizes a descriptor to native byte order; on an already-native
descriptor it returns that same instance unchanged, otherwise a native-order
copy.  (Memory-allocation failure of the copy is not modelled.) -/
def ensure_dtype_nbo (d : Descr) : Option Descr :=
  if d.native then some d else some { d with native := true }

/- Casting levels.  The numeric values and the view-flag bit are those of the
public `NPY_CASTING` enumeration (header, not under src/); the spec gives the
order no-casting < equivalent < safe < same-kind < unsafe plus an orthogonal
cast-is-view flag. -/

def NPY_NO_CASTING : Int := 0
def NPY_EQUIV_CASTING : Int := 1
def NPY_SAFE_CASTING : Int := 2
def NPY_SAME_KIND_CASTING : Int := 3
def NPY_UNSAFE_CASTING : Int := 4
def NPY_CAST_IS_VIEW : Int := 65536

/-- `c & ~_NPY_CAST_IS_VIEW` on the representable `NPY_CASTING` encodings: a
level 0..4 with the single optional high flag bit, or a negative sentinel.
(For a negative sentinel the C bitmask also yields a negative number outside
the level range; we keep the value itself.) -/
def castStripView (c : Int) : Int :=
  if c < 0 then c else if NPY_CAST_IS_VIEW ≤ c then c - NPY_CAST_IS_VIEW else c

/-- Whether the view flag bit is set in a (non-negative) casting encoding. -/
def castHasView (c : Int) : Bool :=
  decide (0 ≤ c) && decide (NPY_CAST_IS_VIEW ≤ c)

/-- Whether a stripped casting value is one of the five defined levels (the
cases of the `switch` in `validate_spec`). -/
def castLevelValid (c : Int) : Bool :=
  c == NPY_NO_CASTING || c == NPY_EQUIV_CASTING || c == NPY_SAFE_CASTING ||
  c == NPY_SAME_KIND_CASTING || c == NPY_UNSAFE_CASTING

/-- Modelled from the spec: `PyArray_MinCastSafety` (convert_datatype.c, not
under src/) — the conservative merge of two casting levels: failure (negative)
is absorbing, otherwise the least safe (numerically largest) level of the two,
keeping the view flag only if both sides have it. -/
def PyArray_MinCastSafety (c1 c2 : Int) : Int :=
  if c1 < 0 ∨ c2 < 0 then -1
  else
    max (castStripView c1) (castStripView c2) +
      (if castHasView c1 && castHasView c2 then NPY_CAST_IS_VIEW else 0)

/- Method flags.  The code only distinguishes `NPY_METH_SUPPORTS_UNALIGNED`
and the runtime flags (`NPY_METH_REQUIRES_PYAPI`,
`NPY_METH_NO_FLOATINGPOINT_ERRORS`) that `NPY_METH_RUNTIME_FLAGS` keeps;
the bitset (header, not under src/) is modelled as a record of booleans. -/
structure MethFlags where
  supports_unaligned : Bool
  requires_pyapi : Bool
  no_fp_errors : Bool
deriving DecidableEq, Repr

/-- `flags & NPY_METH_RUNTIME_FLAGS`: keeps only the runtime-relevant bits. -/
def runtime_mask (f : MethFlags) : MethFlags :=
  { supports_unaligned := false
    requires_pyapi := f.requires_pyapi
    no_fp_errors := f.no_fp_errors }

/-- A resolver or loop-selector function slot of a method: either the built-in
file-static default (`&default_resolve_descriptors` respectively
`&npy_default_get_strided_loop`) or a user-supplied function pointer (which,
being user-supplied, can never equal the file-static default). -/
inductive FnSlot where
  | builtin
  | ptr (p : Option Nat)
deriving DecidableEq, Repr

/-- A `PyType_Slot` entry of a specification: a slot identifier and an untyped
function pointer payload. -/
structure PySlot where
  slot : Int
  pfunc : Option Nat
deriving DecidableEq, Repr

/- Slot identifiers (public header, not under src/); only their distinctness
and being nonzero matter (0 terminates the slot array). -/
def NPY_METH_resolve_descriptors : Int := 1
def NPY_METH_get_loop : Int := 2
def NPY_METH_strided_loop : Int := 3
def NPY_METH_contiguous_loop : Int := 4
def NPY_METH_unaligned_strided_loop : Int := 5
def NPY_METH_unaligned_contiguous_loop : Int := 6

def NPY_MAXARGS : Int := 32

/-- A `PyArrayMethod_Spec`.  `dtypes` is the caller-supplied array of exactly
`nin + nout` nullable DType slots (the C code trusts that length). -/
structure Spec where
  nin : Int
  nout : Int
  casting : Int
  flags : MethFlags
  dtypes : List (Option DTypeMeta)
  slots : List PySlot
deriving Repr

/-- A `PyArrayMethodObject` after construction: arity, flags, declared casting
level, resolver and loop-selector slots, and the four loop pointers. -/
structure Meth where
  nin : Int
  nout : Int
  flags : MethFlags
  casting : Int
  resolve_descriptors : FnSlot
  get_strided_loop : FnSlot
  strided_loop : Option Nat
  contiguous_loop : Option Nat
  unaligned_strided_loop : Option Nat
  unaligned_contiguous_loop : Option Nat
deriving DecidableEq, Repr

/-- A `PyBoundArrayMethodObject`: the method plus the bound DType tuple. -/
structure BoundMeth where
  dtypes : List (Option DTypeMeta)
  method : Meth
deriving DecidableEq, Repr

/-! ## default_resolve_descriptors (array_method.c lines 53-123) -/

/-- The first loop of `default_resolve_descriptors` (lines 64-80), iterated
over the zipped `(dtypes[i], input_descrs[i])` slots in order.  Returns the
partial `output_descrs` array and the `all_defined` flag.
A slot with `dtypes[i] == NULL` stores `NULL` and clears `all_defined`;
otherwise the comparison `NPY_DTYPE(input_descrs[i]) == dtype` dereferences
`input_descrs[i]`, so an absent instance under a defined class is a crash
(line 71); an equal class canonicalizes via `ensure_dtype_nbo`, a different
class instantiates the class default, and a NULL result is the error path. -/
def resolve_pass1 (env : DTypeEnv) :
    List (Option DTypeMeta × Option Descr) → CRes (List (Option Descr) × Bool)
  | [] => .ok ([], true)
  | (none, _) :: rest =>
    match resolve_pass1 env rest with
    | .ok (outs, _) => .ok (none :: outs, false)
    | .err e => .err e
    | .crash => .crash
  | (some dt, given) :: rest =>
    match given with
    | none => .crash
    | some g =>
      match (if g.dtypeId = dt.id then ensure_dtype_nbo g else env.default_descr dt) with
      | none => .err .External
      | some o =>
        match resolve_pass1 env rest with
        | .ok (outs, all) => .ok (some o :: outs, all)
        | .err e => .err e
        | .crash => .crash

/-- The common-DType fold of `default_resolve_descriptors` (lines 93-100):
folds `PyArray_CommonDType` over the remaining input classes.  A NULL input
class is passed to the external call, which dereferences it (crash); an
unrepresentable common class is the error path. -/
def fold_common (env : DTypeEnv) : DTypeMeta → List (Option DTypeMeta) → CRes DTypeMeta
  | c, [] => .ok c
  | _, none :: _ => .crash
  | c, some d :: rest =>
    match env.commonDType c d with
    | none => .err .External
    | some c2 => fold_common env c2 rest

/-- The second loop of `default_resolve_descriptors` (lines 101-114), iterated
over the zipped `(output_descrs[i], input_descrs[i])` output slots: slots
already filled are kept; an unfilled slot compares
`NPY_DTYPE(input_descrs[i])` with the common class — dereferencing the absent
instance (line 105) — and otherwise canonicalizes or instantiates the common
class default. -/
def resolve_pass2 (env : DTypeEnv) (common : DTypeMeta) :
    List (Option Descr × Option Descr) → CRes (List (Option Descr))
  | [] => .ok []
  | (some o, _) :: rest =>
    match resolve_pass2 env common rest with
    | .ok outs => .ok (some o :: outs)
    | .err e => .err e
    | .crash => .crash
  | (none, given) :: rest =>
    match given with
    | none => .crash
    | some g =>
      match (if g.dtypeId = common.id then ensure_dtype_nbo g else env.default_descr common) with
      | none => .err .External
      | some o =>
        match resolve_pass2 env common rest with
        | .ok outs => .ok (some o :: outs)
        | .err e => .err e
        | .crash => .crash

/-- `default_resolve_descriptors` (lines 53-123).  On success returns the
casting level (always the declared `method->casting`) and the output
descriptor array. -/
def default_resolve_descriptors (env : DTypeEnv) (meth : Meth)
    (dtypes : List (Option DTypeMeta)) (input_descrs : List (Option Descr)) :
    CRes (Int × List (Option Descr)) :=
  match resolve_pass1 env (dtypes.zip input_descrs) with
  | .err e => .err e
  | .crash => .crash
  | .ok (outs, all_defined) =>
    if all_defined then .ok (meth.casting, outs)
    else if meth.nin = 0 then .err .RuntimeError
    else
      match dtypes.getD 0 none with
      | none => .err .RuntimeError
      | some c0 =>
        match fold_common env c0 ((dtypes.take meth.nin.toNat).drop 1) with
        | .err e => .err e
        | .crash => .crash
        | .ok common =>
          match resolve_pass2 env common
              ((outs.drop meth.nin.toNat).zip (input_descrs.drop meth.nin.toNat)) with
          | .err e => .err e
          | .crash => .crash
          | .ok outs2 => .ok (meth.casting, outs.take meth.nin.toNat ++ outs2)

/-! ## validate_spec (lines 195-243) -/

/-- The DType-array loop of `validate_spec` (lines 222-241), `i` being the
running slot index: a NULL input slot is a TypeError; then
`PyObject_TypeCheck` is applied to the slot unconditionally, dereferencing a
NULL (output) slot — a crash (line 229); a non-DType object is a TypeError;
an abstract input class is a TypeError. -/
def validate_dtypes (nin : Int) : Int → List (Option DTypeMeta) → CRes Unit
  | _, [] => .ok ()
  | i, none :: _ =>
    if i < nin then .err .TypeError else .crash
  | i, some dt :: rest =>
    if !dt.isDType then .err .TypeError
    else if dt.abstract ∧ i < nin then .err .TypeError
    else validate_dtypes nin (i + 1) rest

/-- `validate_spec` (lines 195-243): arity bounds, casting switch (invalid
nonnegative encodings other than the five levels are rejected unless the
sentinel -1), then the DType-array loop. -/
def validate_spec (spec : Spec) : CRes Unit :=
  if spec.nin < 0 ∨ spec.nout < 0 ∨ NPY_MAXARGS < spec.nin + spec.nout then
    .err .ValueError
  else if !castLevelValid (castStripView spec.casting) ∧ spec.casting ≠ -1 then
    .err .TypeError
  else validate_dtypes spec.nin 0 spec.dtypes

/-! ## fill_arraymethod_from_slots (lines 255-371) -/

/-- The freshly zero-initialized method of `PyArrayMethod_FromSpec_int`
(lines 424-430) with the defaults set (lines 262-264): built-in resolver and
selector, all loop pointers NULL, arity/flags/casting copied from the spec. -/
def meth_init (spec : Spec) : Meth :=
  { nin := spec.nin
    nout := spec.nout
    flags := spec.flags
    casting := spec.casting
    resolve_descriptors := .builtin
    get_strided_loop := .builtin
    strided_loop := none
    contiguous_loop := none
    unaligned_strided_loop := none
    unaligned_contiguous_loop := none }

/-- The slot-filling loop of `fill_arraymethod_from_slots` (lines 272-303):
a slot id of 0 terminates the array; `NPY_METH_get_loop` is accepted only for
private specs; an unknown slot id is a hard RuntimeError. -/
def apply_slots (priv : Bool) : List PySlot → Meth → CRes Meth
  | [], meth => .ok meth
  | s :: rest, meth =>
    if s.slot = 0 then .ok meth
    else if s.slot = NPY_METH_resolve_descriptors then
      apply_slots priv rest { meth with resolve_descriptors := .ptr s.pfunc }
    else if s.slot = NPY_METH_get_loop then
      if priv then apply_slots priv rest { meth with get_strided_loop := .ptr s.pfunc }
      else .err .RuntimeError
    else if s.slot = NPY_METH_strided_loop then
      apply_slots priv rest { meth with strided_loop := s.pfunc }
    else if s.slot = NPY_METH_contiguous_loop then
      apply_slots priv rest { meth with contiguous_loop := s.pfunc }
    else if s.slot = NPY_METH_unaligned_strided_loop then
      apply_slots priv rest { meth with unaligned_strided_loop := s.pfunc }
    else if s.slot = NPY_METH_unaligned_contiguous_loop then
      apply_slots priv rest { meth with unaligned_contiguous_loop := s.pfunc }
    else .err .RuntimeError

/-- The DType checks run when the default resolver remains in effect
(lines 314-338), `i` the running slot index: a NULL input class is a
TypeError; a NULL output class with zero inputs is a TypeError; a NULL output
class with inputs falls through to the parametric check, which dereferences
the NULL slot (line 331) — a crash; a parametric output class is a
TypeError. -/
def check_default_resolver_dtypes (nin : Int) : Int → List (Option DTypeMeta) → CRes Unit
  | _, [] => .ok ()
  | i, none :: _ =>
    if i < nin then .err .TypeError
    else if nin = 0 then .err .TypeError
    else .crash
  | i, some dt :: rest =>
    if nin ≤ i ∧ dt.parametric then .err .TypeError
    else check_default_resolver_dtypes nin (i + 1) rest

/-- The loop-slot consistency checks of `fill_arraymethod_from_slots`
(lines 340-370): skipped entirely under a custom loop selector; otherwise the
strided loop is mandatory, a missing contiguous loop falls back to the strided
one, an unaligned-contiguous loop requires an unaligned-strided one, and
presence of the unaligned-strided loop must match the supports-unaligned
flag.  The contiguous fallback (lines 352-354) is split out as
`contig_fix`. -/
def contig_fix (meth : Meth) : Meth :=
  if meth.contiguous_loop = none then { meth with contiguous_loop := meth.strided_loop }
  else meth

/-- See `contig_fix`: the checks of lines 340-370 around it. -/
def check_and_fix_loops (meth : Meth) : CRes Meth :=
  if meth.get_strided_loop ≠ .builtin then .ok meth
  else if meth.strided_loop = none then .err .TypeError
  else if (contig_fix meth).unaligned_contiguous_loop ≠ none ∧
      (contig_fix meth).unaligned_strided_loop = none then
    .err .TypeError
  else if ((contig_fix meth).unaligned_strided_loop.isNone) ≠
      (!(contig_fix meth).flags.supports_unaligned) then
    .err .TypeError
  else .ok (contig_fix meth)

/-- `fill_arraymethod_from_slots` (lines 255-371): set defaults, fill the user
slots, then check resolver-related constraints (declared casting mandatory
with the default resolver, DType checks) and loop-slot constraints.
`dtypes` is `res->dtypes` (the bound tuple, copied from the spec). -/
def fill_arraymethod_from_slots (spec : Spec) (dtypes : List (Option DTypeMeta))
    (priv : Bool) : CRes Meth :=
  match apply_slots priv spec.slots (meth_init spec) with
  | .err e => .err e
  | .crash => .crash
  | .ok meth =>
    match (if meth.resolve_descriptors = .builtin then
            if spec.casting = -1 then .err .TypeError
            else check_default_resolver_dtypes meth.nin 0 dtypes
           else .ok ()) with
    | .err e => .err e
    | .crash => .crash
    | .ok _ => check_and_fix_loops meth

/-- `PyArrayMethod_FromSpec_int` (lines 387-446): validate the spec, copy the
DType tuple, fill the method from the slots.  (Allocation failures and the
name copy are not modelled.) -/
def PyArrayMethod_FromSpec_int (spec : Spec) (priv : Bool) : CRes BoundMeth :=
  match validate_spec spec with
  | .err e => .err e
  | .crash => .crash
  | .ok _ =>
    match fill_arraymethod_from_slots spec spec.dtypes priv with
    | .err e => .err e
    | .crash => .crash
    | .ok meth => .ok { dtypes := spec.dtypes, method := meth }

/-! ## Loop selection (lines 126-186) -/

/-- The data a loop selector returns through its out-parameters: the selected
loop pointer, auxiliary transfer data, and the runtime flag snapshot. -/
structure LoopSelection where
  loop : Option Nat
  transferdata : Option Nat
  flags : MethFlags
deriving DecidableEq, Repr

/-- `is_contiguous` (lines 126-136): every argument stride equals the item
size of the corresponding resolved descriptor.  The C loop bound `nargs`
equals the common length of the two caller-supplied arrays. -/
def is_contiguous : List Int → List Descr → Bool
  | s :: ss, d :: ds => if s ≠ d.elsize then false else is_contiguous ss ds
  | _, _ => true

/-- `npy_default_get_strided_loop` (lines 156-186): snapshot the runtime
flags, clear the transfer data, then pick the contiguous variant only when it
is registered and every argument is contiguous, else the strided variant —
for the aligned pair under the aligned assertion, for the unaligned pair
otherwise.  Always returns 0 (first component). -/
def npy_default_get_strided_loop (meth : Meth) (descrs : List Descr)
    (strides : List Int) (aligned : Bool) : Int × LoopSelection :=
  let flags := runtime_mask meth.flags
  if aligned then
    if meth.contiguous_loop = none ∨ is_contiguous strides descrs = false then
      (0, { loop := meth.strided_loop, transferdata := none, flags := flags })
    else
      (0, { loop := meth.contiguous_loop, transferdata := none, flags := flags })
  else
    if meth.unaligned_contiguous_loop = none ∨ is_contiguous strides descrs = false then
      (0, { loop := meth.unaligned_strided_loop, transferdata := none, flags := flags })
    else
      (0, { loop := meth.unaligned_contiguous_loop, transferdata := none, flags := flags })

/-! ## The masked loop adapter (lines 768-832)

The mask is a list of booleans; data pointers are modelled by the element
offset from the start of the buffers (all arguments advance in lockstep, so
one offset suffices; byte strides scale offsets uniformly and are dropped).
The wrapped inner loop is a function from (element offset, run length) to its
integer result code. -/

/-- Modelled from the spec: `npy_memchr(mask, 0, stride, N, &subloopsize, 1)`
(common.h, not under src/) — the length of the leading run of false (zero)
mask entries, the "skip masked values" scan. -/
def maskFalseRun (m : List Bool) : Nat := (m.takeWhile (fun b => !b)).length

/-- Modelled from the spec: `npy_memchr(mask, 0, stride, N, &subloopsize, 0)`
(common.h, not under src/) — the length of the leading run of true (nonzero)
mask entries, the "process unmasked values" scan. -/
def maskTrueRun (m : List Bool) : Nat := (m.takeWhile (fun b => b)).length

/-- The do-while body of `generic_masked_strided_loop` (lines 808-829),
fuel-indexed (the fuel only bounds the iteration count; it never runs out
when it exceeds the mask length, see `masked_loop_go_spec`).  `m` is the
not-yet-consumed mask suffix, `pos` the current element offset.  Returns the
list of (offset, length) invocations of the inner loop, in order, and the
final result code: each iteration skips the leading false run, invokes the
inner loop on the following true run (possibly of length 0, exactly as the C
code does), propagates a nonzero inner result immediately, and repeats while
elements remain. -/
def masked_loop_go (inner : Nat → Nat → Int) : Nat → List Bool → Nat →
    List (Nat × Nat) × Int
  | 0, _, _ => ([], 0)
  | fuel + 1, m, pos =>
    let s := maskFalseRun m
    let m1 := m.drop s
    let t := maskTrueRun m1
    let r := inner (pos + s) t
    if r ≠ 0 then ([(pos + s, t)], r)
    else
      let m2 := m1.drop t
      if m2.isEmpty then ([(pos + s, t)], 0)
      else
        let rest := masked_loop_go inner fuel m2 (pos + s + t)
        ((pos + s, t) :: rest.1, rest.2)

/-- `generic_masked_strided_loop` (lines 791-832) on a mask of length `N`:
run the do-while with sufficient fuel from offset 0. -/
def generic_masked_strided_loop (inner : Nat → Nat → Int) (mask : List Bool) :
    List (Nat × Nat) × Int :=
  masked_loop_go inner (mask.length + 1) mask 0

/-- The element offsets an invocation list visits: the concatenation of the
ranges `[pos, pos+len)` in order. -/
def runIdx : List (Nat × Nat) → List Nat
  | [] => []
  | r :: rest => List.range' r.1 r.2 ++ runIdx rest

/-- The indices at which a mask is true, in increasing order. -/
def trueIdx : List Bool → List Nat
  | [] => []
  | b :: m => if b then 0 :: (trueIdx m).map (· + 1) else (trueIdx m).map (· + 1)

/-! ## The resolve-only entry point (lines 514-624) -/

/-- An element of the argument tuple passed to `_resolve_descriptors`:
`Py_None`, a descriptor instance, or some other Python object. -/
inductive DescrItem where
  | pynone
  | descr (d : Descr)
  | other
deriving DecidableEq, Repr

/-- What a `resolve_descriptors` implementation communicates back to a caller:
the returned casting level, the filled output-descriptor array, and whether a
Python error was left set — or a crash inside the resolver. -/
inductive ResolverReturn where
  | ret (casting : Int) (descrs : List (Option Descr)) (errState : Option PyErr)
  | crash
deriving DecidableEq, Repr

/-- The result `_resolve_descriptors` builds: the casting level and, when the
operation is possible, the resolved descriptor tuple (`None` otherwise). -/
structure ResolveOutput where
  casting : Int
  descrs : Option (List (Option Descr))
deriving DecidableEq, Repr

/-- The tuple-parsing loop of `boundarraymethod__resolve_descripors`
(lines 532-559) over the zipped (bound DType, tuple item) slots, `i` the slot
index: `None` is rejected for inputs and stored as NULL for outputs; a
descriptor must be an exact instance of the bound DType (pointer comparison
of `Py_TYPE(tmp)` with the, possibly NULL, bound slot); anything else is a
TypeError. -/
def parse_descr_tuple (nin : Int) : Int → List (Option DTypeMeta × DescrItem) →
    CRes (List (Option Descr))
  | _, [] => .ok []
  | i, (dt, item) :: rest =>
    match item with
    | .pynone =>
      if i < nin then .err .TypeError
      else (parse_descr_tuple nin (i + 1) rest).map (fun outs => none :: outs)
    | .descr d =>
      if dt.map DTypeMeta.id ≠ some d.dtypeId then .err .TypeError
      else (parse_descr_tuple nin (i + 1) rest).map (fun outs => some d :: outs)
    | .other => .err .TypeError

/-- The parametric scan of `boundarraymethod__resolve_descripors`
(lines 586-592): dereferences each bound DType slot in turn (a NULL slot is a
crash) until a parametric one is found. -/
def scan_parametric : List (Option DTypeMeta) → CRes Bool
  | [] => .ok false
  | none :: _ => .crash
  | some dt :: rest => if dt.parametric then .ok true else scan_parametric rest

/-- `boundarraymethod__resolve_descripors` (lines 514-624).  The resolver the
method would dispatch to through its function pointer is passed as `resolver`
(the built-in one is `default_resolve_descriptors` wrapped by
`run_default_resolver`).  Parses the tuple, invokes the resolver, reports an
impossible combination as `(casting, None)`, and otherwise self-checks the
returned level against the declared one: the conservative merge with the
declared level must leave the declared level unchanged, and for
non-parametric methods the stripped level must equal the declared one unless
the declared level is equivalent — a violation is an internal-consistency
RuntimeError. -/
def boundarraymethod_resolve_descripors
    (resolver : List (Option DTypeMeta) → List (Option Descr) → ResolverReturn)
    (bm : BoundMeth) (items : List DescrItem) : CRes ResolveOutput :=
  if (items.length : Int) ≠ bm.method.nin + bm.method.nout then .err .TypeError
  else
    match parse_descr_tuple bm.method.nin 0 (bm.dtypes.zip items) with
    | .err e => .err e
    | .crash => .crash
    | .ok given =>
      match resolver bm.dtypes given with
      | .crash => .crash
      | .ret casting loop_descrs errState =>
        if casting < 0 then
          match errState with
          | some e => .err e
          | none => .ok { casting := casting, descrs := none }
        else
          match scan_parametric bm.dtypes with
          | .err e => .err e
          | .crash => .crash
          | .ok parametric =>
            if bm.method.casting ≠ -1 then
              if bm.method.casting ≠
                  PyArray_MinCastSafety (castStripView casting) bm.method.casting then
                .err .RuntimeError
              else if ¬parametric ∧ castStripView casting ≠ bm.method.casting ∧
                  bm.method.casting ≠ NPY_EQUIV_CASTING then
                .err .RuntimeError
              else .ok { casting := casting, descrs := some loop_descrs }
            else .ok { casting := casting, descrs := some loop_descrs }

/-- The built-in resolver packaged in the calling convention of
`ResolverReturn` (return value plus Python error state). -/
def run_default_resolver (env : DTypeEnv) (meth : Meth)
    (dtypes : List (Option DTypeMeta)) (given : List (Option Descr)) : ResolverReturn :=
  match default_resolve_descriptors env meth dtypes given with
  | .ok (c, outs) => .ret c outs none
  | .err e => .ret (-1) [] (some e)
  | .crash => .crash

/-! ## The direct strided call entry point (lines 631-756), argument phase -/

/-- The fields of a 1-argument `PyArrayObject` that
`boundarraymethod__simple_strided_call` inspects. -/
structure PyArrayObj where
  descr : Descr
  ndim : Nat
  size : Int
  writeable : Bool
  aligned : Bool
  stride : Int
deriving DecidableEq, Repr

/-- An element of the argument tuple of `_simple_strided_call`: an ndarray or
some other Python object. -/
inductive ArrItem where
  | arr (a : PyArrayObj)
  | other
deriving DecidableEq, Repr

/-- The argument-validation loop of `boundarraymethod__simple_strided_call`
(lines 653-697), `i` the argument index, `len` the length of the first array
once seen, `aligned` the running conjunction of the per-array alignment
flags: each item must be an ndarray whose descriptor is an exact instance of
the bound DType, one-dimensional, of the common length; the writability check
`PyArray_FailUnlessWriteable` is applied to the arguments with `i >= nout`
(exactly as in the source).  Returns the accumulated alignment flag. -/
def simple_strided_call_args (bm : BoundMeth) : Int → Option Int → Bool →
    List ArrItem → CRes Bool
  | _, _, aligned, [] => .ok aligned
  | _, _, _, .other :: _ => .err .TypeError
  | i, len, aligned, .arr a :: rest =>
    if (bm.dtypes.getD i.toNat none).map DTypeMeta.id ≠ some a.descr.dtypeId then
      .err .TypeError
    else if a.ndim ≠ 1 then .err .ValueError
    else
      match (match len with
             | none => CRes.ok a.size
             | some l => if a.size ≠ l then CRes.err PyErr.ValueError else CRes.ok l) with
      | .err e => .err e
      | .crash => .crash
      | .ok l2 =>
        if bm.method.nout ≤ i ∧ a.writeable = false then .err .ValueError
        else simple_strided_call_args bm (i + 1) (some l2) (aligned && a.aligned) rest

/-- The prologue of `boundarraymethod__simple_strided_call` (lines 645-702):
the arity check on the tuple, the argument-validation loop, and the rejection
of unaligned buffers for methods without unaligned support.  (The remainder
of the entry point — descriptor resolution, the no-adaptation check, loop
selection and the single loop invocation — follows these checks in the
source and is independent of the properties stated about this phase.) -/
def simple_strided_call_prologue (bm : BoundMeth) (items : List ArrItem) : CRes Bool :=
  if (items.length : Int) ≠ bm.method.nin + bm.method.nout then .err .TypeError
  else
    match simple_strided_call_args bm 0 none true items with
    | .err e => .err e
    | .crash => .crash
    | .ok aligned =>
      if !aligned ∧ bm.method.flags.supports_unaligned = false then .err .ValueError
      else .ok aligned

/-! ## Loop-configuration invariants (spec section 3 / C6) -/

/-- The loop-configuration invariant of a constructed method under the
built-in selector: strided loop present, contiguous loop present,
unaligned-contiguous only with unaligned-strided, unaligned-strided present
exactly when the supports-unaligned flag is set. -/
def loop_invariants (m : Meth) : Prop :=
  m.strided_loop ≠ none ∧ m.contiguous_loop ≠ none ∧
  (m.unaligned_contiguous_loop ≠ none → m.unaligned_strided_loop ≠ none) ∧
  (m.unaligned_strided_loop ≠ none ↔ m.flags.supports_unaligned = true)

/-- A loop configuration violating the construction rules for the built-in
selector (the negations of the three checked conditions). -/
def loops_violated (m : Meth) : Prop :=
  m.strided_loop = none ∨
  (m.unaligned_contiguous_loop ≠ none ∧ m.unaligned_strided_loop = none) ∨
  ¬ (m.unaligned_strided_loop ≠ none ↔ m.flags.supports_unaligned = true)

/-! ## Concrete fixtures for the theorems below -/

/-- A concrete non-parametric, non-abstract DType class. -/
def dtA : DTypeMeta := { id := 1, isDType := true, abstract := false, parametric := false }

/-- A concrete abstract DType class. -/
def dtAbs : DTypeMeta := { id := 2, isDType := true, abstract := true, parametric := false }

/-- A Python object that is not a DType class. -/
def dtJunk : DTypeMeta := { id := 3, isDType := false, abstract := false, parametric := false }

/-- The canonical (native-order) instance of `dtA`. -/
def descrA : Descr := { id := 10, dtypeId := 1, native := true, elsize := 4 }

/-- A concrete environment: the default instance of `dtA` is `descrA`, and
the common class of a class with itself is that class. -/
def env1 : DTypeEnv :=
  { default_descr := fun dt => if dt.id = 1 then some descrA else none
    commonDType := fun a b => if a = b then some a else none }

/-- An environment with no capabilities (for theorems that do not consult
it). -/
def env0 : DTypeEnv := { default_descr := fun _ => none, commonDType := fun _ _ => none }

/-- All-clear method flags. -/
def noFlags : MethFlags :=
  { supports_unaligned := false, requires_pyapi := false, no_fp_errors := false }

/-- A small baseline method: one input, no outputs, declared casting
same-kind, default resolver and selector, strided and contiguous loops
registered. -/
def mW : Meth :=
  { nin := 1, nout := 0, flags := noFlags, casting := NPY_SAME_KIND_CASTING,
    resolve_descriptors := .builtin, get_strided_loop := .builtin,
    strided_loop := some 100, contiguous_loop := some 100,
    unaligned_strided_loop := none, unaligned_contiguous_loop := none }

/-- The C1 scenario specification: 2-in/1-out, declared casting same-kind,
default resolver and selector, input classes both `dtA`, output class
unspecified (NULL), a strided loop registered. -/
def spec_c1 : Spec :=
  { nin := 2, nout := 1, casting := NPY_SAME_KIND_CASTING, flags := noFlags,
    dtypes := [some dtA, some dtA, none],
    slots := [{ slot := NPY_METH_strided_loop, pfunc := some 100 }] }

/-- The method object the C1 scenario describes (as construction would
produce it). -/
def meth_c1 : Meth :=
  { meth_init spec_c1 with strided_loop := some 100, contiguous_loop := some 100 }

/-- A 1-in/1-out method with the default resolver (for C2). -/
def meth_c2 : Meth := { mW with nout := 1 }

/- C4 fixture specifications. -/

/-- Spec with a NULL output DType slot (C4 failing input). -/
def spec_c4_nullout : Spec :=
  { nin := 1, nout := 1, casting := 0, flags := noFlags,
    dtypes := [some dtA, none], slots := [] }

/-- Spec with a NULL input DType slot. -/
def spec_c4_nullin : Spec := { spec_c4_nullout with dtypes := [none, some dtA] }

/-- Spec with an abstract input DType. -/
def spec_c4_abstract : Spec := { spec_c4_nullout with dtypes := [some dtAbs, some dtA] }

/-- Spec with a non-DType object in a slot. -/
def spec_c4_junk : Spec := { spec_c4_nullout with dtypes := [some dtA, some dtJunk] }

/-- Spec with an abstract OUTPUT DType (and concrete input): per the claim the
abstract class is permitted there. -/
def spec_c4_absout : Spec := { spec_c4_nullout with dtypes := [some dtA, some dtAbs] }

/- C3 fixtures. -/

/-- A valid, writable, aligned 1-d array of five `descrA` elements. -/
def arr_ok : PyArrayObj :=
  { descr := descrA, ndim := 1, size := 5, writeable := true, aligned := true, stride := 4 }

/-- The same array, read-only. -/
def arr_ro : PyArrayObj := { arr_ok with writeable := false }

/-- A 2-in/1-out bound method (C3, case of an input demanded writable). -/
def bm_c3a : BoundMeth :=
  { dtypes := [some dtA, some dtA, some dtA], method := { mW with nin := 2, nout := 1 } }

/-- A 1-in/2-out bound method (C3, case of an output never checked). -/
def bm_c3b : BoundMeth :=
  { dtypes := [some dtA, some dtA, some dtA], method := { mW with nin := 1, nout := 2 } }

/- C7 / C10 fixtures. -/

/-- A method with an unaligned-strided loop but no unaligned-contiguous
loop. -/
def meth_c7 : Meth :=
  { mW with unaligned_strided_loop := some 55,
            flags := { noFlags with supports_unaligned := true } }

/-- A method with an unaligned-contiguous loop but NO unaligned-strided loop
(constructible only past the private selector override, but a perfectly good
input to the default selector as a function). -/
def meth_c10 : Meth := { mW with unaligned_contiguous_loop := some 7 }

/- C9 fixtures. -/

/-- A bound method declaring safe casting (for the C9 witness). -/
def bm_c9 : BoundMeth :=
  { dtypes := [some dtA], method := { mW with casting := NPY_SAFE_CASTING } }

/-- A resolver returning same-kind casting — less safe than the declared safe
level of `bm_c9`, so the consistency self-check must fault. -/
def resolver_c9 : List (Option DTypeMeta) → List (Option Descr) → ResolverReturn :=
  fun _ _ => .ret NPY_SAME_KIND_CASTING [some descrA] none

/- C6 fixtures. -/

/-- A well-formed 1-in/0-out spec with a strided loop (C6 witness). -/
def spec_c6w : Spec :=
  { nin := 1, nout := 0, casting := 0, flags := noFlags,
    dtypes := [some dtA], slots := [{ slot := NPY_METH_strided_loop, pfunc := some 100 }] }

/-- The method `spec_c6w` constructs. -/
def meth_c6w : Meth :=
  { meth_init spec_c6w with strided_loop := some 100, contiguous_loop := some 100 }

/-- The slot-filled (pre-check) method of `spec_c6w`. -/
def meth_c6w_slots : Meth := { meth_init spec_c6w with strided_loop := some 100 }

/-- `spec_c6w` without any loop slot: with the built-in selector this violates
the mandatory-strided-loop rule. -/
def spec_c6v : Spec := { spec_c6w with slots := [] }

/-! # Theorems

First general helper lemmas about the embedded definitions, then one theorem
(plus witness or counterexample) per claim. -/

/-! ## Helpers: contiguous fallback and the construction checks -/

theorem contig_fix_strided (m : Meth) : (contig_fix m).strided_loop = m.strided_loop := by
  unfold contig_fix; split <;> rfl

theorem contig_fix_us (m : Meth) :
    (contig_fix m).unaligned_strided_loop = m.unaligned_strided_loop := by
  unfold contig_fix; split <;> rfl

theorem contig_fix_uc (m : Meth) :
    (contig_fix m).unaligned_contiguous_loop = m.unaligned_contiguous_loop := by
  unfold contig_fix; split <;> rfl

theorem contig_fix_flags (m : Meth) : (contig_fix m).flags = m.flags := by
  unfold contig_fix; split <;> rfl

theorem contig_fix_gsl (m : Meth) : (contig_fix m).get_strided_loop = m.get_strided_loop := by
  unfold contig_fix; split <;> rfl

theorem contig_fix_contiguous (m : Meth) (h : m.strided_loop ≠ none) :
    (contig_fix m).contiguous_loop ≠ none := by
  unfold contig_fix; split <;> simp_all

theorem contig_fix_contiguous_of_none (m : Meth) (h : m.contiguous_loop = none) :
    (contig_fix m).contiguous_loop = (contig_fix m).strided_loop := by
  unfold contig_fix; split <;> simp_all

theorem isNone_flag_iff (o : Option Nat) (b : Bool) (h : o.isNone = !b) :
    (o ≠ none ↔ b = true) := by
  cases o <;> cases b <;> simp_all

/-- A successful pass through the loop checks yields the invariants, the
contiguous fallback, and an unchanged selector slot. -/
theorem check_and_fix_ok (m meth : Meth) (hb : m.get_strided_loop = .builtin)
    (h : check_and_fix_loops m = .ok meth) :
    loop_invariants meth ∧
    (m.contiguous_loop = none → meth.contiguous_loop = meth.strided_loop) ∧
    meth.get_strided_loop = .builtin := by
  unfold check_and_fix_loops at h
  rw [if_neg (by simp [hb])] at h
  split at h
  · simp at h
  · split at h
    · simp at h
    · split at h
      · simp at h
      · rename_i hstr hpair hflag
        injection h with h2
        subst h2
        refine ⟨⟨?_, ?_, ?_, ?_⟩, ?_, ?_⟩
        · rw [contig_fix_strided]; exact hstr
        · exact contig_fix_contiguous m hstr
        · intro hx; exact fun hy => hpair ⟨hx, hy⟩
        · rw [contig_fix_us, contig_fix_flags]
          rw [contig_fix_us, contig_fix_flags] at hflag
          push_neg at hflag
          exact isNone_flag_iff _ _ (by simpa using hflag)
        · intro hc; exact contig_fix_contiguous_of_none m hc
        · rw [contig_fix_gsl]; exact hb

/-- A violating loop configuration never passes the loop checks. -/
theorem check_and_fix_violated (m : Meth) (hb : m.get_strided_loop = .builtin)
    (hv : loops_violated m) : ∀ meth, check_and_fix_loops m ≠ .ok meth := by
  intro meth h
  unfold check_and_fix_loops at h
  rw [if_neg (by simp [hb])] at h
  split at h
  · simp at h
  · rename_i hstr
    split at h
    · simp at h
    · rename_i hpair
      split at h
      · simp at h
      · rename_i hflag
        rcases hv with hv | hv | hv
        · exact hstr hv
        · exact hpair ⟨by rw [contig_fix_uc]; exact hv.1, by rw [contig_fix_us]; exact hv.2⟩
        · rw [contig_fix_us, contig_fix_flags] at hflag
          push_neg at hflag
          exact hv (isNone_flag_iff _ _ (by simpa using hflag))

/-- The loop checks never change the selector slot. -/
theorem check_and_fix_gsl (m meth : Meth) (h : check_and_fix_loops m = .ok meth) :
    meth.get_strided_loop = m.get_strided_loop := by
  unfold check_and_fix_loops at h
  split at h
  · injection h with h2; subst h2; rfl
  · split at h
    · simp at h
    · split at h
      · simp at h
      · split at h
        · simp at h
        · injection h with h2; subst h2; exact contig_fix_gsl m

/-- A successful fill factors through slot application and the loop checks. -/
theorem fill_ok_decomp (spec : Spec) (dts : List (Option DTypeMeta)) (priv : Bool) (meth : Meth)
    (h : fill_arraymethod_from_slots spec dts priv = .ok meth) :
    ∃ m, apply_slots priv spec.slots (meth_init spec) = .ok m ∧
      check_and_fix_loops m = .ok meth := by
  unfold fill_arraymethod_from_slots at h
  split at h
  · simp at h
  · simp at h
  · rename_i m hm
    split at h
    · simp at h
    · simp at h
    · exact ⟨m, hm, h⟩

/-! ## Helpers: the default resolver -/

/-- Whenever `default_resolve_descriptors` returns normally, the returned
casting level is exactly the declared one. -/
theorem resolve_ok_casting (env : DTypeEnv) (m : Meth) (dts : List (Option DTypeMeta))
    (ins : List (Option Descr)) (c : Int) (outs : List (Option Descr))
    (h : default_resolve_descriptors env m dts ins = .ok (c, outs)) : c = m.casting := by
  unfold default_resolve_descriptors at h
  split at h
  · simp at h
  · simp at h
  · split at h
    · injection h with h2; injection h2 with h3 h4; exact h3.symm
    · split at h
      · simp at h
      · split at h
        · simp at h
        · split at h
          · simp at h
          · simp at h
          · split at h
            · simp at h
            · simp at h
            · injection h with h2; injection h2 with h3 h4; exact h3.symm

/-- The first resolver pass maps fully-supplied, class-matching, canonical
slots to themselves and leaves `all_defined` set. -/
theorem resolve_pass1_canonical (env : DTypeEnv) (dts : List DTypeMeta) (ds : List Descr)
    (h : List.Forall₂ (fun dt d => d.dtypeId = dt.id ∧ d.native = true) dts ds) :
    resolve_pass1 env ((dts.map some).zip (ds.map some)) = .ok (ds.map some, true) := by
  induction h with
  | nil => rfl
  | @cons dt d dts2 ds2 hpair hrest ih =>
    simp only [List.map_cons, List.zip_cons_cons, resolve_pass1]
    rw [if_pos hpair.1]
    unfold ensure_dtype_nbo
    rw [if_pos hpair.2]
    dsimp only
    rw [show List.zipWith Prod.mk (List.map some dts2) (List.map some ds2) =
      (List.map some dts2).zip (List.map some ds2) from rfl, ih]

/-! ## Helpers: the masked loop -/

theorem runIdx_length (rs : List (Nat × Nat)) :
    (runIdx rs).length = (rs.map Prod.snd).sum := by
  induction rs with
  | nil => rfl
  | cons r rest ih => simp [runIdx, ih]

theorem trueIdx_length (m : List Bool) : (trueIdx m).length = m.count true := by
  induction m with
  | nil => rfl
  | cons b rest ih =>
    cases b <;> simp [trueIdx, ih, List.count_cons]

theorem map_shift_shift (l : List Nat) (a b : Nat) :
    (l.map (· + a)).map (· + b) = l.map (· + (a + b)) := by
  simp [List.map_map, Function.comp, Nat.add_assoc]

theorem range'_shift (s n a : Nat) :
    (List.range' s n).map (· + a) = List.range' (s + a) n := by
  have h := List.map_add_range' a s n 1
  rw [show s + a = a + s from Nat.add_comm s a, ← h]
  simp [Nat.add_comm]

theorem maskFalseRun_false (rest : List Bool) :
    maskFalseRun (false :: rest) = maskFalseRun rest + 1 := by
  simp [maskFalseRun, List.takeWhile_cons]

theorem maskFalseRun_true (rest : List Bool) : maskFalseRun (true :: rest) = 0 := by
  simp [maskFalseRun, List.takeWhile_cons]

theorem maskTrueRun_true (rest : List Bool) :
    maskTrueRun (true :: rest) = maskTrueRun rest + 1 := by
  simp [maskTrueRun, List.takeWhile_cons]

theorem maskTrueRun_false (rest : List Bool) : maskTrueRun (false :: rest) = 0 := by
  simp [maskTrueRun, List.takeWhile_cons]

/-- The leading false run contributes no true indices: the index list is the
shifted index list of the rest. -/
theorem trueIdx_falseRun (m : List Bool) :
    trueIdx m = (trueIdx (m.drop (maskFalseRun m))).map (· + maskFalseRun m) := by
  induction m with
  | nil => rfl
  | cons b rest ih =>
    cases b
    · rw [maskFalseRun_false]
      show (trueIdx rest).map (· + 1) = _
      rw [List.drop_succ_cons, ih, map_shift_shift]
    · rw [maskFalseRun_true]
      simp [trueIdx]

/-- The leading true run contributes exactly the indices `[0, run)`. -/
theorem trueIdx_trueRun (m : List Bool) :
    trueIdx m = List.range' 0 (maskTrueRun m) ++
      (trueIdx (m.drop (maskTrueRun m))).map (· + maskTrueRun m) := by
  induction m with
  | nil => rfl
  | cons b rest ih =>
    cases b
    · rw [maskTrueRun_false]
      simp [trueIdx]
    · rw [maskTrueRun_true]
      show 0 :: (trueIdx rest).map (· + 1) = _
      rw [List.drop_succ_cons, ih]
      rw [List.map_append, map_shift_shift, range'_shift]
      rw [List.range'_succ]
      simp

/-- Each do-while iteration on a nonempty mask consumes at least one mask
element. -/
theorem runs_progress (m : List Bool) (h : m ≠ []) :
    1 ≤ maskFalseRun m + maskTrueRun (m.drop (maskFalseRun m)) := by
  cases m with
  | nil => exact absurd rfl h
  | cons b rest =>
    cases b
    · rw [maskFalseRun_false]; omega
    · rw [maskFalseRun_true, List.drop_zero, maskTrueRun_true]; omega

theorem runIdx_cons (r : Nat × Nat) (rs : List (Nat × Nat)) :
    runIdx (r :: rs) = List.range' r.1 r.2 ++ runIdx rs := rfl

/-- The masked do-while loop with a zero-returning inner loop visits, in
order, exactly the (pos-shifted) true indices of the mask — provided the fuel
exceeds the mask length, which the wrapper guarantees. -/
theorem masked_loop_go_spec (fuel : Nat) :
    ∀ (m : List Bool) (pos : Nat) (inner : Nat → Nat → Int),
      (∀ p l, inner p l = 0) → m.length < fuel →
      runIdx (masked_loop_go inner fuel m pos).1 = (trueIdx m).map (· + pos) := by
  induction fuel with
  | zero => intro m pos inner hz hlen; omega
  | succ fuel ih =>
    intro m pos inner hz hlen
    rw [masked_loop_go]
    simp only [hz, ne_eq, not_true_eq_false, ite_false, if_false]
    by_cases hemp : ((m.drop (maskFalseRun m)).drop (maskTrueRun (m.drop (maskFalseRun m)))).isEmpty
    · rw [if_pos hemp]
      have h2 : (m.drop (maskFalseRun m)).drop (maskTrueRun (m.drop (maskFalseRun m))) = [] :=
        List.isEmpty_iff.mp hemp
      dsimp only
      rw [runIdx_cons]
      rw [trueIdx_falseRun m, trueIdx_trueRun (m.drop (maskFalseRun m)), h2]
      simp only [trueIdx, List.map_nil, List.append_nil, List.map_append]
      rw [map_shift_shift, range'_shift]
      simp [runIdx, Nat.add_comm]
    · rw [if_neg hemp]
      dsimp only
      rw [runIdx_cons]
      have hne : m ≠ [] := by
        intro hnil
        subst hnil
        simp [List.drop_nil] at hemp
      have hprog := runs_progress m hne
      have hpos : 0 < m.length := List.length_pos.mpr hne
      have hm2 : ((m.drop (maskFalseRun m)).drop
          (maskTrueRun (m.drop (maskFalseRun m)))).length < fuel := by
        simp only [List.length_drop]
        omega
      rw [ih _ _ inner hz hm2]
      rw [trueIdx_falseRun m, trueIdx_trueRun (m.drop (maskFalseRun m))]
      rw [List.map_append, List.map_append]
      rw [map_shift_shift, map_shift_shift, map_shift_shift, range'_shift]
      congr 1
      · simp [Nat.add_comm]
      · simp [Nat.add_comm, Nat.add_left_comm]

/-! ## Helpers: the default loop selector -/

/-- The default selector is total: status 0 and no auxiliary data, always. -/
theorem default_selector_total (meth : Meth) (descrs : List Descr) (strides : List Int)
    (aligned : Bool) :
    (npy_default_get_strided_loop meth descrs strides aligned).1 = 0 ∧
    (npy_default_get_strided_loop meth descrs strides aligned).2.transferdata = none := by
  unfold npy_default_get_strided_loop
  constructor
  · split <;> split <;> rfl
  · split <;> split <;> rfl

/-- The selected loop does not depend on the supports-unaligned flag. -/
theorem default_selector_flag_blind (meth : Meth) (descrs : List Descr) (strides : List Int)
    (aligned : Bool) (b : Bool) :
    (npy_default_get_strided_loop
        { meth with flags := { meth.flags with supports_unaligned := b } }
        descrs strides aligned).2.loop =
      (npy_default_get_strided_loop meth descrs strides aligned).2.loop := by
  unfold npy_default_get_strided_loop
  cases aligned <;> dsimp only <;> split <;> split <;> simp_all

/-- With both unaligned loops absent, the unaligned path selects NULL. -/
theorem default_selector_null_loop (meth : Meth) (descrs : List Descr) (strides : List Int)
    (h1 : meth.unaligned_strided_loop = none) (h2 : meth.unaligned_contiguous_loop = none) :
    (npy_default_get_strided_loop meth descrs strides false).2.loop = none := by
  unfold npy_default_get_strided_loop
  simp [h1, h2]

/-! ## The claims -/

/-- C1 (counterexample): the claimed scenario — nin=2/nout=1, declared casting
same-kind, default resolver, input classes both `dtA`, output class NULL —
does NOT both construct successfully and resolve the canonical inputs to
(no-casting, A-canonical): construction in fact dereferences the NULL output
slot in `validate_spec` (line 229) and never yields an object. -/
theorem c1_counterexample :
    ¬ ((∃ bm, PyArrayMethod_FromSpec_int spec_c1 true = .ok bm) ∧
       default_resolve_descriptors env1 meth_c1 spec_c1.dtypes
         [some descrA, some descrA, none] =
         .ok (NPY_NO_CASTING, [some descrA, some descrA, some descrA])) := by
  rintro ⟨⟨bm, h⟩, -⟩
  rw [show PyArrayMethod_FromSpec_int spec_c1 true = .crash from by decide] at h
  simp at h

/-- C1 (amended): in the scenario method (nin=2, nout=1, declared casting
same-kind, default resolver, input classes both `dtA`, output class NULL),
construction does not succeed — `validate_spec` dereferences the NULL output
slot (line 229), a crash — and invoking the default resolver directly with
both inputs A-canonical and the output instance absent likewise dereferences
NULL (line 105); moreover, whenever the default resolver does return, the
casting level it returns is the declared one (same-kind here), never
no-casting. -/
theorem c1_amended :
    PyArrayMethod_FromSpec_int spec_c1 true = .crash ∧
    default_resolve_descriptors env1 meth_c1 spec_c1.dtypes
      [some descrA, some descrA, none] = .crash ∧
    (∀ (env : DTypeEnv) (m : Meth) (dts : List (Option DTypeMeta))
       (ins : List (Option Descr)) (c : Int) (outs : List (Option Descr)),
       default_resolve_descriptors env m dts ins = .ok (c, outs) → c = m.casting) :=
  ⟨by decide, by decide, resolve_ok_casting⟩

/-- C1 (witness): the final conjunct of `c1_amended` applied at a concrete
successful resolution, whose returned level is the declared same-kind. -/
theorem c1_amended_witness :
    default_resolve_descriptors env0 mW [some dtA] [some descrA] = .ok (3, [some descrA]) ∧
    (3 : Int) = mW.casting :=
  ⟨by decide, c1_amended.2.2 env0 mW [some dtA] [some descrA] 3 [some descrA] (by decide)⟩

/-- C2 (code bug evaluation): a slot whose DType class is declared but whose
supplied instance is NULL makes the default resolver dereference the NULL
instance (`NPY_DTYPE(input_descrs[i])`, lines 71 and 105) instead of
producing the declared class default: both the first-pass case (declared
output class `dtA`, absent instance) and the second-pass case (NULL output
class resolved to the common class, absent instance) crash. -/
theorem c2_crash_eval :
    default_resolve_descriptors env1 meth_c2 [some dtA, some dtA]
      [some descrA, none] = .crash ∧
    default_resolve_descriptors env1 meth_c2 [some dtA, none]
      [some descrA, none] = .crash :=
  ⟨by decide, by decide⟩

/-- C3 (code bug evaluation): the direct strided call checks writability for
the argument indices `i >= nout` (line 686) instead of the outputs
`i >= nin`: with nin=2/nout=1 a read-only second INPUT is rejected, and with
nin=1/nout=2 a read-only first OUTPUT passes the argument checks. -/
theorem c3_writability_eval :
    simple_strided_call_prologue bm_c3a [.arr arr_ok, .arr arr_ro, .arr arr_ok] =
      .err .ValueError ∧
    simple_strided_call_prologue bm_c3b [.arr arr_ok, .arr arr_ro, .arr arr_ok] =
      .ok true :=
  ⟨by decide, by decide⟩

/-- C4 (code bug evaluation): `validate_spec` rejects a NULL input slot, an
abstract input class and a non-DType object, and accepts an abstract output
class — but a NULL OUTPUT slot is fed to `PyObject_TypeCheck` (line 229),
dereferencing NULL (crash) instead of passing as the claim states. -/
theorem c4_validate_eval :
    validate_spec spec_c4_nullin = .err .TypeError ∧
    validate_spec spec_c4_abstract = .err .TypeError ∧
    validate_spec spec_c4_junk = .err .TypeError ∧
    validate_spec spec_c4_absout = .ok () ∧
    validate_spec spec_c4_nullout = .crash :=
  ⟨by decide, by decide, by decide, by decide, by decide⟩

/-- C5: the masked adapter, wrapped around an inner loop that only counts
(always returns 0), visits exactly the true-mask element offsets once each
and in original order (`runIdx … = trueIdx mask`), hence invokes the inner
loop on a total number of elements equal to the number of true entries; and
for the mask [T,T,F,F,T] the nonzero run lengths passed to the inner loop are
[2, 1] in that order. -/
theorem c5_masked_adapter :
    (∀ (mask : List Bool) (inner : Nat → Nat → Int), (∀ p l, inner p l = 0) →
      runIdx (generic_masked_strided_loop inner mask).1 = trueIdx mask ∧
      ((generic_masked_strided_loop inner mask).1.map Prod.snd).sum = mask.count true) ∧
    (((generic_masked_strided_loop (fun _ _ => 0)
        [true, true, false, false, true]).1.map Prod.snd).filter (fun n => n ≠ 0) = [2, 1]) := by
  constructor
  · intro mask inner hz
    have hv := masked_loop_go_spec (mask.length + 1) mask 0 inner hz (by omega)
    have hv0 : runIdx (generic_masked_strided_loop inner mask).1 = trueIdx mask := by
      rw [generic_masked_strided_loop, hv]
      simp
    refine ⟨hv0, ?_⟩
    rw [← runIdx_length, hv0, trueIdx_length]
  · decide

/-- C5 (witness): the general part of `c5_masked_adapter` instantiated at the
mask [T,F,T] and the constant-zero counting loop. -/
theorem c5_masked_adapter_witness :
    runIdx (generic_masked_strided_loop (fun _ _ => 0) [true, false, true]).1 =
      trueIdx [true, false, true] ∧
    ((generic_masked_strided_loop (fun _ _ => 0) [true, false, true]).1.map Prod.snd).sum =
      ([true, false, true] : List Bool).count true :=
  c5_masked_adapter.1 [true, false, true] (fun _ _ => 0) (fun _ _ => rfl)

/-- C6: under the built-in loop selector, (i) every successfully constructed
method satisfies the loop invariants — strided loop present, contiguous loop
present, unaligned-contiguous only with unaligned-strided, unaligned-strided
present iff the supports-unaligned flag is set; (ii) when no contiguous loop
was supplied the constructed contiguous loop equals the strided one; and
(iii) a spec whose slot-filled loop configuration violates the invariants is
never turned into an object, by `fill_arraymethod_from_slots` or by
`PyArrayMethod_FromSpec_int`.  (Methods are values here, so the invariant is
immutable by construction.) -/
theorem c6_builtin_selector_invariants :
    (∀ (spec : Spec) (dts : List (Option DTypeMeta)) (priv : Bool) (meth : Meth),
      fill_arraymethod_from_slots spec dts priv = .ok meth →
      meth.get_strided_loop = .builtin → loop_invariants meth) ∧
    (∀ (spec : Spec) (dts : List (Option DTypeMeta)) (priv : Bool) (m meth : Meth),
      apply_slots priv spec.slots (meth_init spec) = .ok m →
      fill_arraymethod_from_slots spec dts priv = .ok meth →
      meth.get_strided_loop = .builtin →
      m.contiguous_loop = none → meth.contiguous_loop = meth.strided_loop) ∧
    (∀ (spec : Spec) (priv : Bool) (m : Meth),
      apply_slots priv spec.slots (meth_init spec) = .ok m →
      m.get_strided_loop = .builtin → loops_violated m →
      (∀ (dts : List (Option DTypeMeta)) (meth : Meth),
        fill_arraymethod_from_slots spec dts priv ≠ .ok meth) ∧
      (∀ bm, PyArrayMethod_FromSpec_int spec priv ≠ .ok bm)) := by
  refine ⟨?_, ?_, ?_⟩
  · intro spec dts priv meth hfill hbuiltin
    obtain ⟨m, hm, hcf⟩ := fill_ok_decomp spec dts priv meth hfill
    have hb : m.get_strided_loop = .builtin := by
      rw [← check_and_fix_gsl m meth hcf]; exact hbuiltin
    exact (check_and_fix_ok m meth hb hcf).1
  · intro spec dts priv m meth happ hfill hbuiltin hctg
    obtain ⟨m2, hm2, hcf⟩ := fill_ok_decomp spec dts priv meth hfill
    rw [happ] at hm2
    injection hm2 with hme
    subst hme
    have hb : m.get_strided_loop = .builtin := by
      rw [← check_and_fix_gsl m meth hcf]; exact hbuiltin
    exact (check_and_fix_ok m meth hb hcf).2.1 hctg
  · intro spec priv m happ hb hv
    constructor
    · intro dts meth hfill
      obtain ⟨m2, hm2, hcf⟩ := fill_ok_decomp spec dts priv meth hfill
      rw [happ] at hm2
      injection hm2 with hme
      subst hme
      exact check_and_fix_violated m hb hv meth hcf
    · intro bm hFS
      unfold PyArrayMethod_FromSpec_int at hFS
      split at hFS
      · simp at hFS
      · simp at hFS
      · split at hFS
        · simp at hFS
        · simp at hFS
        · rename_i meth hfill
          obtain ⟨m2, hm2, hcf⟩ := fill_ok_decomp spec spec.dtypes priv meth hfill
          rw [happ] at hm2
          injection hm2 with hme
          subst hme
          exact check_and_fix_violated m hb hv meth hcf

/-- C6 (witness): `spec_c6w` constructs `meth_c6w`, which satisfies the
invariants with the contiguous fallback in effect; `spec_c6v` (no strided
loop) is rejected. -/
theorem c6_builtin_selector_invariants_witness :
    loop_invariants meth_c6w ∧
    meth_c6w.contiguous_loop = meth_c6w.strided_loop ∧
    fill_arraymethod_from_slots spec_c6v [some dtA] true ≠ .ok meth_c6w ∧
    PyArrayMethod_FromSpec_int spec_c6v true ≠
      .ok { dtypes := [some dtA], method := meth_c6w } :=
  ⟨c6_builtin_selector_invariants.1 spec_c6w [some dtA] true meth_c6w (by decide) (by decide),
   c6_builtin_selector_invariants.2.1 spec_c6w [some dtA] true meth_c6w_slots meth_c6w
     (by decide) (by decide) (by decide) (by decide),
   (c6_builtin_selector_invariants.2.2 spec_c6v true (meth_init spec_c6v)
     (by decide) (by decide) (by unfold loops_violated; left; rfl)).1 [some dtA] meth_c6w,
   (c6_builtin_selector_invariants.2.2 spec_c6v true (meth_init spec_c6v)
     (by decide) (by decide) (by unfold loops_violated; left; rfl)).2 _⟩

/-- C7: for any method with an unaligned-strided loop and no
unaligned-contiguous loop, the default selector under the unaligned assertion
with all-contiguous strides succeeds (status 0) and returns the
unaligned-strided loop pointer. -/
theorem c7_unaligned_strided_fallback :
    ∀ (meth : Meth) (descrs : List Descr) (strides : List Int) (p : Nat),
      meth.unaligned_strided_loop = some p →
      meth.unaligned_contiguous_loop = none →
      is_contiguous strides descrs = true →
      (npy_default_get_strided_loop meth descrs strides false).1 = 0 ∧
      (npy_default_get_strided_loop meth descrs strides false).2.loop = some p := by
  intro meth descrs strides p hus huc hcont
  unfold npy_default_get_strided_loop
  simp [huc, hus]

/-- C7 (witness): `meth_c7` with contiguous strides. -/
theorem c7_unaligned_strided_fallback_witness :
    (npy_default_get_strided_loop meth_c7 [descrA] [4] false).1 = 0 ∧
    (npy_default_get_strided_loop meth_c7 [descrA] [4] false).2.loop = some 55 :=
  c7_unaligned_strided_fallback meth_c7 [descrA] [4] 55 (by decide) (by decide) (by decide)

/-- C8: the default resolver, on a method whose slot classes are all defined,
concrete (non-abstract) and non-parametric, with every slot instance
supplied, class-matching and already canonical, returns exactly those same
instances per slot and the declared casting level unchanged. -/
theorem c8_identity_resolution :
    ∀ (env : DTypeEnv) (meth : Meth) (dts : List DTypeMeta) (ds : List Descr),
      List.Forall₂ (fun dt d => dt.abstract = false ∧ dt.parametric = false ∧
        d.dtypeId = dt.id ∧ d.native = true) dts ds →
      default_resolve_descriptors env meth (dts.map some) (ds.map some) =
        .ok (meth.casting, ds.map some) := by
  intro env meth dts ds h
  have h2 : List.Forall₂ (fun dt d => d.dtypeId = dt.id ∧ d.native = true) dts ds :=
    List.Forall₂.imp (fun _ _ hx => ⟨hx.2.2.1, hx.2.2.2⟩) h
  unfold default_resolve_descriptors
  rw [resolve_pass1_canonical env dts ds h2]
  rfl

/-- C8 (witness): identity resolution at `dtA`/`descrA` in `env1`. -/
theorem c8_identity_resolution_witness :
    default_resolve_descriptors env1 mW ([dtA].map some) ([descrA].map some) =
      .ok (mW.casting, [descrA].map some) :=
  c8_identity_resolution env1 mW [dtA] [descrA]
    (List.Forall₂.cons (by decide) List.Forall₂.nil)

/-- C9: for a method with a declared casting level, once the argument tuple
parses and the resolver returns a level `c ≥ 0` with no error set, the
resolve-only entry point raises the internal-consistency RuntimeError exactly
when the conservative merge of the stripped returned level with the declared
level differs from the declared level, or no bound class is parametric, the
stripped returned level differs from the declared one and the declared level
is not equivalent. -/
theorem c9_consistency_fault_iff :
    ∀ (resolver : List (Option DTypeMeta) → List (Option Descr) → ResolverReturn)
      (bm : BoundMeth) (items : List DescrItem) (given : List (Option Descr))
      (c : Int) (outs : List (Option Descr)) (par : Bool),
      (items.length : Int) = bm.method.nin + bm.method.nout →
      parse_descr_tuple bm.method.nin 0 (bm.dtypes.zip items) = .ok given →
      resolver bm.dtypes given = .ret c outs none →
      0 ≤ c →
      scan_parametric bm.dtypes = .ok par →
      bm.method.casting ≠ -1 →
      (boundarraymethod_resolve_descripors resolver bm items = .err .RuntimeError ↔
        (PyArray_MinCastSafety (castStripView c) bm.method.casting ≠ bm.method.casting ∨
         (par = false ∧ castStripView c ≠ bm.method.casting ∧
          bm.method.casting ≠ NPY_EQUIV_CASTING))) := by
  intro resolver bm items given c outs par hlen hparse hres hc hscan hdecl
  unfold boundarraymethod_resolve_descripors
  rw [if_neg (by simp [hlen])]
  rw [hparse]
  dsimp only
  rw [hres]
  dsimp only
  rw [if_neg (by omega)]
  rw [hscan]
  dsimp only
  rw [if_pos hdecl]
  by_cases h1 : bm.method.casting ≠ PyArray_MinCastSafety (castStripView c) bm.method.casting
  · rw [if_pos h1]
    constructor
    · intro _; left; exact Ne.symm h1
    · intro _; rfl
  · rw [if_neg h1]
    push_neg at h1
    by_cases h2 : (¬(par = true) ∧ castStripView c ≠ bm.method.casting ∧
        bm.method.casting ≠ NPY_EQUIV_CASTING)
    · rw [if_pos h2]
      constructor
      · intro _
        right
        exact ⟨by simpa using h2.1, h2.2.1, h2.2.2⟩
      · intro _; rfl
    · rw [if_neg h2]
      constructor
      · intro hok; exact absurd hok (by simp)
      · intro hor
        exfalso
        rcases hor with hor | hor
        · exact hor h1.symm
        · exact h2 ⟨by simp [hor.1], hor.2.1, hor.2.2⟩

/-- C9 (witness): `bm_c9` declares safe casting, `resolver_c9` returns
same-kind: the entry point faults. -/
theorem c9_consistency_fault_iff_witness :
    boundarraymethod_resolve_descripors resolver_c9 bm_c9 [.descr descrA] =
      .err .RuntimeError :=
  (c9_consistency_fault_iff resolver_c9 bm_c9 [.descr descrA] [some descrA]
    NPY_SAME_KIND_CASTING [some descrA] false
    (by decide) (by decide) (by decide) (by decide) (by decide) (by decide)).mpr
    (by decide)

/-- C10 (counterexample): a method whose unaligned-strided loop is absent but
whose unaligned-contiguous loop is present, called unaligned with contiguous
strides, succeeds with a NON-null loop pointer (the unaligned-contiguous
loop), contradicting the claim that the output loop pointer is null for every
method lacking the unaligned-strided loop. -/
theorem c10_counterexample :
    meth_c10.unaligned_strided_loop = none ∧
    (npy_default_get_strided_loop meth_c10 [descrA] [4] false).1 = 0 ∧
    (npy_default_get_strided_loop meth_c10 [descrA] [4] false).2.loop ≠ none :=
  ⟨by decide, by decide, by decide⟩

/-- C10 (amended): the default loop selector is total — it always returns
status 0 with null auxiliary data; the selected loop never depends on the
supports-unaligned flag; and, invoked with the aligned assertion false on a
method with neither unaligned loop present (the only configurations the
built-in construction admits without an unaligned-strided loop), it succeeds
while setting the output loop pointer to null. -/
theorem c10_amended :
    ∀ (meth : Meth) (descrs : List Descr) (strides : List Int) (aligned : Bool),
      ((npy_default_get_strided_loop meth descrs strides aligned).1 = 0 ∧
       (npy_default_get_strided_loop meth descrs strides aligned).2.transferdata = none) ∧
      (∀ b : Bool,
        (npy_default_get_strided_loop
            { meth with flags := { meth.flags with supports_unaligned := b } }
            descrs strides aligned).2.loop =
          (npy_default_get_strided_loop meth descrs strides aligned).2.loop) ∧
      (meth.unaligned_strided_loop = none → meth.unaligned_contiguous_loop = none →
        (npy_default_get_strided_loop meth descrs strides false).2.loop = none) := by
  intro meth descrs strides aligned
  exact ⟨default_selector_total meth descrs strides aligned,
    fun b => default_selector_flag_blind meth descrs strides aligned b,
    fun h1 h2 => default_selector_null_loop meth descrs strides h1 h2⟩

/-- C10 (witness): `mW` has no unaligned loops; unaligned selection returns
success with a null loop pointer. -/
theorem c10_amended_witness :
    (npy_default_get_strided_loop mW [descrA] [4] false).2.loop = none :=
  (c10_amended mW [descrA] [4] false).2.2 (by decide) (by decide)

end ArrayMethod
